import Mathlib

/-!
Verification of the AgentNetwork distributed test orchestrator scripts.

This file gives a shallow embedding of the port-planning, process
supervision, health monitoring, attack tallying and report scoring logic
of the repository scripts (network_manager.py, malicious_node_test.py,
heterogeneous_network_test_local.py, heterogeneous_network_test.py,
malicious_attack_demo.py, simple_malicious_test.py) and proves or refutes
the testable properties stated for them.

External effects (sockets, subprocesses, the wall clock) are modelled as
explicit oracle inputs: a port-occupancy predicate, per-request HTTP
outcomes, and per-process termination behaviour.
-/

/- ======================= TopologyPlanner (C1) =======================
   Embedding of network_manager.py: NetworkConfig, NodeConfig and
   generate_node_configs (lines 131-159). -/

/-- Mirror of the NetworkConfig dataclass of network_manager.py, with the
same defaults; base ports are caller-supplied through the CLI flags. -/
structure NetworkConfig where
  name : String := "testnet"
  base_dir : String := "./testnet"
  node_count : Nat := 5
  base_p2p_port : Nat := 9000
  base_http_port : Nat := 18000
  genesis_node_id : String := "genesis-node-001"

/-- Mirror of the NodeConfig dataclass of network_manager.py. -/
structure NodeConfig where
  node_id : String
  p2p_port : Nat
  http_port : Nat
  data_dir : String
  bootstrap : String := ""
  is_genesis : Bool := false
  is_supernode : Bool := false

/-- Embedding of generate_node_configs: the genesis node takes the two base
ports, node i (for 1 <= i < node_count) takes base port + i in each class.
No occupancy check is performed by this function in the source. -/
def generate_node_configs (config : NetworkConfig) : List NodeConfig :=
  let genesis : NodeConfig :=
    { node_id := config.genesis_node_id
      p2p_port := config.base_p2p_port
      http_port := config.base_http_port
      data_dir := config.base_dir ++ "/node-genesis"
      is_genesis := true
      is_supernode := true }
  let bootstrap_addr :=
    "/ip4/127.0.0.1/tcp/" ++ toString config.base_p2p_port ++ "/p2p/" ++
      config.genesis_node_id
  genesis :: (List.range' 1 (config.node_count - 1)).map (fun i =>
    { node_id := "node-" ++ toString i
      p2p_port := config.base_p2p_port + i
      http_port := config.base_http_port + i
      data_dir := config.base_dir ++ "/node-" ++ toString i
      bootstrap := bootstrap_addr })

/-- The two ports bound by one node descriptor of network_manager.py
(this variant has no admin port). -/
def node_ports (n : NodeConfig) : List Nat := [n.p2p_port, n.http_port]

/-- All ports of a plan, across both port classes. -/
def all_ports (nodes : List NodeConfig) : List Nat := nodes.flatMap node_ports

/-- A realizable invocation: start -n 2 --p2p-port 9000 --http-port 9001. -/
def cfg_adjacent_ports : NetworkConfig :=
  { node_count := 2, base_p2p_port := 9000, base_http_port := 9001 }

lemma all_ports_eq (config : NetworkConfig) (hn : 1 ≤ config.node_count) :
    all_ports (generate_node_configs config) =
      (List.range' 0 config.node_count).flatMap
        (fun i => [config.base_p2p_port + i, config.base_http_port + i]) := by
  obtain ⟨m, hm⟩ : ∃ m, config.node_count = m + 1 :=
    ⟨config.node_count - 1, by omega⟩
  simp only [hm, generate_node_configs, all_ports, List.range'_succ,
    Nat.add_sub_cancel, List.flatMap_cons, List.flatMap_map]
  simp [node_ports]

lemma node_count_pos_of_sep (config : NetworkConfig)
    (hn : 1 ≤ config.node_count)
    (hsep : config.base_p2p_port + config.node_count ≤ config.base_http_port ∨
            config.base_http_port + config.node_count ≤ config.base_p2p_port) :
    config.base_p2p_port ≠ config.base_http_port := by
  rcases hsep with h | h <;> omega

/-- C1 (amended): generate_node_configs returns pairwise-distinct ports
across both port classes provided the two caller-supplied base ports are at
least node_count apart (in either direction) and the plan is nonempty.
Within a single port class the ports are always distinct. -/
theorem C1_plan_ports_distinct (config : NetworkConfig)
    (hn : 1 ≤ config.node_count)
    (hsep : config.base_p2p_port + config.node_count ≤ config.base_http_port ∨
            config.base_http_port + config.node_count ≤ config.base_p2p_port) :
    (all_ports (generate_node_configs config)).Nodup := by
  rw [all_ports_eq config hn]
  rw [List.nodup_flatMap]
  constructor
  · intro i _
    have hne : config.base_p2p_port + i ≠ config.base_http_port + i := by
      rcases hsep with h | h <;> omega
    simp [hne]
  · have hp : (List.range' 0 config.node_count).Pairwise (· ≠ ·) :=
      List.nodup_range' 0 config.node_count
    refine List.Pairwise.imp_of_mem ?_ hp
    intro a b ha hb hne
    have ha2 : a < config.node_count := by
      have := List.mem_range'_1.mp ha; omega
    have hb2 : b < config.node_count := by
      have := List.mem_range'_1.mp hb; omega
    intro x hx hx2
    simp only [List.mem_cons, List.mem_singleton, List.not_mem_nil,
      or_false] at hx hx2
    rcases hx with rfl | rfl <;> rcases hx2 with h4 | h4 <;>
      rcases hsep with h | h <;> omega

/-- Witness for C1 at the default configuration (5 nodes, bases 9000 and
18000): all ten planned ports are distinct. -/
theorem C1_plan_ports_distinct_witness :
    (all_ports (generate_node_configs ({} : NetworkConfig))).Nodup :=
  C1_plan_ports_distinct ({} : NetworkConfig) (by decide) (by decide)

/-- C1 counterexample: with caller-supplied bases 9000/9001 and two nodes,
the genesis http port and the port of node-001's p2p class are both 9001:
the plan does not guarantee pairwise-distinct ports for every valid input. -/
theorem C1_counterexample :
    ¬ (all_ports (generate_node_configs cfg_adjacent_ports)).Nodup := by
  decide

/- ======================= find_available_port (C10) =======================
   Embedding of network_manager.py find_available_port (lines 86-94): scan
   upward from start_port, collecting ports the occupancy oracle reports
   free, until count ports are found. The unbounded while loop is modelled
   with explicit fuel; the correctness theorem shows fuel covering the
   probed range suffices, which is the termination argument. -/

/-- Fuel-indexed embedding of the while loop of find_available_port.
The argument inUse is the host port-occupancy oracle probed by
is_port_in_use via connect_ex. -/
def find_available_port (inUse : Nat → Bool) : Nat → Nat → Nat → List Nat
  | 0, _, _ => []
  | fuel + 1, port, count =>
    if count = 0 then []
    else if inUse port then find_available_port inUse fuel (port + 1) count
    else port :: find_available_port inUse fuel (port + 1) (count - 1)

/-- Number of free ports among start, start+1, ..., start+n-1. -/
def free_port_count (inUse : Nat → Bool) (start n : Nat) : Nat :=
  (List.range' start n).countP (fun p => !(inUse p))

lemma find_available_port_mem (inUse : Nat → Bool) :
    ∀ fuel port count p, p ∈ find_available_port inUse fuel port count →
      port ≤ p ∧ inUse p = false := by
  intro fuel
  induction fuel with
  | zero => intro port count p hp; simp [find_available_port] at hp
  | succ n ih =>
    intro port count p hp
    by_cases hc : count = 0
    · simp [find_available_port, hc] at hp
    · by_cases hu : inUse port
      · rw [find_available_port, if_neg hc, if_pos hu] at hp
        have := ih (port + 1) count p hp
        exact ⟨by omega, this.2⟩
      · rw [find_available_port, if_neg hc, if_neg hu] at hp
        rcases List.mem_cons.mp hp with rfl | hmem
        · exact ⟨le_refl _, by simpa using hu⟩
        · have := ih (port + 1) (count - 1) p hmem
          exact ⟨by omega, this.2⟩

lemma find_available_port_sorted (inUse : Nat → Bool) :
    ∀ fuel port count,
      List.Sorted (· < ·) (find_available_port inUse fuel port count) := by
  intro fuel
  induction fuel with
  | zero => intro port count; simp [find_available_port]
  | succ n ih =>
    intro port count
    by_cases hc : count = 0
    · simp [find_available_port, hc]
    · by_cases hu : inUse port
      · rw [find_available_port, if_neg hc, if_pos hu]; exact ih (port + 1) count
      · rw [find_available_port, if_neg hc, if_neg hu]
        rw [List.sorted_cons]
        refine ⟨?_, ih (port + 1) (count - 1)⟩
        intro b hb
        have := find_available_port_mem inUse n (port + 1) (count - 1) b hb
        omega

lemma find_available_port_length (inUse : Nat → Bool) :
    ∀ fuel port count, count ≤ free_port_count inUse port fuel →
      (find_available_port inUse fuel port count).length = count := by
  intro fuel
  induction fuel with
  | zero =>
    intro port count h
    simp only [free_port_count, List.range'_zero, List.countP_nil,
      Nat.le_zero] at h
    simp [find_available_port, h]
  | succ n ih =>
    intro port count h
    have hcnt : free_port_count inUse port (n + 1) =
        (if !(inUse port) then 1 else 0) + free_port_count inUse (port + 1) n := by
      simp only [free_port_count, List.range'_succ, List.countP_cons]
      omega
    by_cases hc : count = 0
    · simp [find_available_port, hc]
    · by_cases hu : inUse port
      · rw [find_available_port, if_neg hc, if_pos hu]
        apply ih
        rw [hcnt] at h
        simpa [hu] using h
      · rw [find_available_port, if_neg hc, if_neg hu]
        simp only [List.length_cons]
        rw [ih (port + 1) (count - 1) ?_]
        · omega
        · rw [hcnt] at h
          simp only [hu] at h
          simp at h
          omega

/-- C10: if at least count ports at or above start are free through the
probed window, find_available_port returns exactly count strictly
increasing (hence distinct) free ports, all at or above start. The fuel
bound makes the loop's termination explicit: the scan never probes past
start + fuel. -/
theorem C10_find_available_port_correct (inUse : Nat → Bool)
    (fuel start count : Nat)
    (h : count ≤ free_port_count inUse start fuel) :
    (find_available_port inUse fuel start count).length = count ∧
    List.Sorted (· < ·) (find_available_port inUse fuel start count) ∧
    ∀ p ∈ find_available_port inUse fuel start count,
      start ≤ p ∧ inUse p = false :=
  ⟨find_available_port_length inUse fuel start count h,
   find_available_port_sorted inUse fuel start count,
   fun p hp => find_available_port_mem inUse fuel start count p hp⟩

/-- Occupancy oracle with every port below 9002 bound. -/
def demo_in_use : Nat → Bool := fun p => decide (p < 9002)

/-- Witness for C10: with ports below 9002 occupied, scanning from 9000 for
3 ports terminates within a 5-port window and yields 3 sorted free ports. -/
theorem C10_find_available_port_witness :
    (find_available_port demo_in_use 5 9000 3).length = 3 ∧
    List.Sorted (· < ·) (find_available_port demo_in_use 5 9000 3) ∧
    ∀ p ∈ find_available_port demo_in_use 5 9000 3,
      9000 ≤ p ∧ demo_in_use p = false :=
  C10_find_available_port_correct demo_in_use 5 9000 3 (by decide)

/- ======================= HealthMonitor (C2) =======================
   Embedding of monitor_network of heterogeneous_network_test_local.py
   (lines 596-625) and of heterogeneous_network_test.py (lines 522-552).
   The per-node HTTP environment is an explicit input: for each node, either
   the health probe raises (connection refused, timeout, or an HTTP error
   status, all of which urlopen raises as exceptions) or it returns a status
   code; for reachable nodes the observed neighbor-list length is a second
   input (get_neighbors catches its own failures and returns an empty list,
   so it never raises). -/

/-- Outcome of the urlopen health probe issued for one node. -/
inductive ProbeOutcome
  | raises
  | status (code : Nat)
deriving DecidableEq

/-- The health counter is bumped exactly when the probe returned status 200. -/
def health_ok : ProbeOutcome → Bool
  | ProbeOutcome.raises => false
  | ProbeOutcome.status c => decide (c = 200)

/-- Entry recorded in neighbors_count by the local variant: the except arm
writes -1 for a node whose probe raised. -/
def neighbors_entry_local (name : String) (o : ProbeOutcome) (nbrs : Nat) :
    String × Int :=
  match o with
  | ProbeOutcome.raises => (name, -1)
  | ProbeOutcome.status _ => (name, (nbrs : Int))

/-- Entry recorded by the Docker variant heterogeneous_network_test.py: its
except arm writes 0 instead of -1. -/
def neighbors_entry_docker (name : String) (o : ProbeOutcome) (nbrs : Nat) :
    String × Int :=
  match o with
  | ProbeOutcome.raises => (name, 0)
  | ProbeOutcome.status _ => (name, (nbrs : Int))

/-- Mirror of the NetworkStats dataclass (timestamp and host resource
percentages omitted: they do not depend on node reachability). -/
structure NetworkStats where
  total_nodes : Nat
  healthy_nodes : Nat
  neighbors_count : List (String × Int)
deriving DecidableEq

/-- Embedding of HeterogeneousNetworkTestLocal.monitor_network: one pass
over the configured nodes, never raising; the fold over the per-node
try/except arms is expressed with countP and map. -/
def monitor_network_local (probes : List (String × ProbeOutcome × Nat)) :
    NetworkStats :=
  { total_nodes := probes.length
    healthy_nodes := probes.countP (fun x => health_ok x.2.1)
    neighbors_count :=
      probes.map (fun x => neighbors_entry_local x.1 x.2.1 x.2.2) }

/-- Embedding of monitor_network of heterogeneous_network_test.py, which
differs only in the except arm of the neighbors entry. -/
def monitor_network_docker (probes : List (String × ProbeOutcome × Nat)) :
    NetworkStats :=
  { total_nodes := probes.length
    healthy_nodes := probes.countP (fun x => health_ok x.2.1)
    neighbors_count :=
      probes.map (fun x => neighbors_entry_docker x.1 x.2.1 x.2.2) }

lemma countP_health_le (l : List (String × ProbeOutcome × Nat)) :
    l.countP (fun x => health_ok x.2.1) +
      l.countP (fun x => decide (x.2.1 = ProbeOutcome.raises)) ≤ l.length := by
  induction l with
  | nil => simp
  | cons hd tl ih =>
    rw [List.countP_cons, List.countP_cons, List.length_cons]
    have h1 : (if health_ok hd.2.1 then 1 else 0) +
        (if decide (hd.2.1 = ProbeOutcome.raises) then 1 else 0) ≤ 1 := by
      cases hh : hd.2.1 with
      | raises => simp [health_ok]
      | status c => by_cases hc : c = 200 <;> simp [health_ok, hc]
    omega

/-- C2 (amended): the local monitor_network is a total function of the
probe outcomes (no fault propagates); every node whose probe raises is
recorded with neighbor count -1 and is excluded from healthy_nodes, so
healthy_nodes plus the number of unreachable nodes never exceeds the node
total. In the Docker variant the same holds with 0 in place of -1. -/
theorem C2_sample_unreachable (probes : List (String × ProbeOutcome × Nat)) :
    (monitor_network_local probes).healthy_nodes +
        probes.countP (fun x => decide (x.2.1 = ProbeOutcome.raises)) ≤
      (monitor_network_local probes).total_nodes ∧
    ∀ name cnt, (name, ProbeOutcome.raises, cnt) ∈ probes →
      (name, (-1 : Int)) ∈ (monitor_network_local probes).neighbors_count := by
  constructor
  · exact countP_health_le probes
  · intro name cnt hmem
    have h := List.mem_map_of_mem
      (fun x : String × ProbeOutcome × Nat =>
        neighbors_entry_local x.1 x.2.1 x.2.2) hmem
    simpa [monitor_network_local, neighbors_entry_local] using h

/-- A three-node probe pass with one unreachable node. -/
def demo_probes : List (String × ProbeOutcome × Nat) :=
  [("genesis", ProbeOutcome.status 200, 4),
   ("node1", ProbeOutcome.status 200, 3),
   ("malicious1", ProbeOutcome.raises, 0)]

/-- Witness for C2 at a concrete probe pass: the unreachable node is
recorded with -1. -/
theorem C2_sample_unreachable_witness :
    ("malicious1", (-1 : Int)) ∈ (monitor_network_local demo_probes).neighbors_count :=
  (C2_sample_unreachable demo_probes).2 ("malicious1") 0 (by decide)

/-- C2 counterexample: in the Docker variant an unreachable node is
recorded with neighbor count 0, not -1 as the claim states. -/
theorem C2_counterexample :
    (monitor_network_docker [("genesis", ProbeOutcome.raises, 0)]).neighbors_count =
      [("genesis", (0 : Int))] ∧ (0 : Int) ≠ -1 := by
  decide

/- ======================= ProcessSupervisor.stop (C3) =======================
   Embedding of MaliciousNodeTest.stop_node (malicious_node_test.py lines
   232-254). The process table is the dict of Popen handles keyed by node
   id; whether the process exits within the 5 second grace period (so that
   proc.wait(5) returns) or has to be force-killed is an environment input.
   Signal delivery to a child process is modelled as non-failing, which is
   the POSIX behaviour for a child that has not yet been reaped. -/

/-- Mirror of the NodeInfo dataclass of malicious_node_test.py. -/
structure NodeInfo where
  node_id : String
  index : Nat := 0
  p2p_port : Nat := 0
  http_port : Nat := 0
  admin_port : Nat := 0
  data_dir : String := ""
  is_genesis : Bool := false
  is_malicious : Bool := false
  pid : Nat := 0
  status : String := "stopped"
deriving DecidableEq

/-- Signals sent to the child process during one stop. -/
inductive Sig
  | term
  | kill
deriving DecidableEq

/-- The supervisor's table of live Popen handles (self.processes keys). -/
structure SupervisorState where
  processes : List String
deriving DecidableEq

/-- Result of one stop_node call: updated table, updated descriptor, the
returned Boolean, and the signals that were sent. -/
structure StopResult where
  state : SupervisorState
  node : NodeInfo
  ok : Bool
  sigs : List Sig
deriving DecidableEq

/-- Embedding of MaliciousNodeTest.stop_node: if a handle exists, send
SIGTERM and wait up to the grace period, escalating to SIGKILL when the
wait times out (respondsToTerm = false), then drop the handle; in every
case set status to stopped and pid to 0 and return True. -/
def stop_node (respondsToTerm : Bool) (st : SupervisorState) (node : NodeInfo) :
    StopResult :=
  if node.node_id ∈ st.processes then
    { state := { processes := st.processes.erase node.node_id }
      node := { node with status := "stopped", pid := 0 }
      ok := true
      sigs := if respondsToTerm then [Sig.term] else [Sig.term, Sig.kill] }
  else
    { state := st
      node := { node with status := "stopped", pid := 0 }
      ok := true
      sigs := [] }

/-- C3: stop_node always leaves the descriptor with status stopped and
pid 0 and returns True, on the graceful path and on the force-kill path
alike, and a second stop of the same descriptor is a no-op on the
descriptor that again returns True. -/
theorem C3_stop_node_stopped (b1 b2 : Bool) (st : SupervisorState)
    (node : NodeInfo) :
    (stop_node b1 st node).node.status = "stopped" ∧
    (stop_node b1 st node).node.pid = 0 ∧
    (stop_node b1 st node).ok = true ∧
    (stop_node b2 (stop_node b1 st node).state (stop_node b1 st node).node).node =
      (stop_node b1 st node).node ∧
    (stop_node b2 (stop_node b1 st node).state (stop_node b1 st node).node).ok =
      true := by
  by_cases h1 : node.node_id ∈ st.processes <;>
    by_cases h2 : node.node_id ∈ st.processes.erase node.node_id <;>
      simp [stop_node, h1, h2]

/- ======================= Flood scenario counts (C4) =======================
   Embedding of attack_spam_flooding (heterogeneous_network_test_local.py
   lines 419-450), attack_1_ddos_simulation (malicious_attack_demo.py lines
   61-111) and perform_flood_attack (simple_malicious_test.py lines 80-97).
   The HTTP environment is the per-request outcome sequence. -/

/-- The three counters of attack_spam_flooding. -/
structure FloodCounts where
  success_count : Nat
  blocked_count : Nat
  error_count : Nat
deriving DecidableEq

/-- One iteration of the attack_spam_flooding loop: api_call returns the
HTTP status, or 0 when the request raised; 200 counts as success, 429 as
rate-limited, everything else as error. -/
def spam_flood_step (acc : FloodCounts) (code : Nat) : FloodCounts :=
  if code = 200 then { acc with success_count := acc.success_count + 1 }
  else if code = 429 then { acc with blocked_count := acc.blocked_count + 1 }
  else { acc with error_count := acc.error_count + 1 }

/-- Embedding of attack_spam_flooding over the sequence of response codes
(the source sends a burst of 20, so codes has length 20). -/
def attack_spam_flooding (codes : List Nat) : FloodCounts :=
  codes.foldl spam_flood_step
    { success_count := 0, blocked_count := 0, error_count := 0 }

/-- Outcome of one send_flood_request task of attack_1_ddos_simulation:
the GET returned 200, returned another status, or raised. -/
inductive ReqOutcome
  | okResp
  | badResp
  | exn
deriving DecidableEq

/-- The counters of attack_1_ddos_simulation. -/
structure DdosCounts where
  requests_sent : Nat
  successful_requests : Nat
  failed_requests : Nat
deriving DecidableEq

/-- Increments performed by one send_flood_request task. -/
def ddos_task_step (acc : DdosCounts) : ReqOutcome → DdosCounts
  | ReqOutcome.okResp =>
    { acc with requests_sent := acc.requests_sent + 1,
               successful_requests := acc.successful_requests + 1 }
  | ReqOutcome.badResp =>
    { acc with requests_sent := acc.requests_sent + 1,
               failed_requests := acc.failed_requests + 1 }
  | ReqOutcome.exn =>
    { acc with failed_requests := acc.failed_requests + 1 }

/-- Increment performed by the collection loop when future.result(timeout=1)
raises for that task even though the task itself still runs to completion
inside the pool (the with-block joins all workers, so the task increments
are always applied as well). -/
def ddos_collect_step (acc : DdosCounts) (resultTimedOut : Bool) : DdosCounts :=
  if resultTimedOut then
    { acc with failed_requests := acc.failed_requests + 1 }
  else acc

/-- Embedding of attack_1_ddos_simulation over the 100 submitted requests:
each request contributes its task increments and, when its result
collection timed out, one extra failed increment. The counter totals are
sums of per-request increments, so the fold order is immaterial. -/
def attack_1_ddos_simulation (reqs : List (ReqOutcome × Bool)) : DdosCounts :=
  reqs.foldl (fun acc r => ddos_collect_step (ddos_task_step acc r.1) r.2)
    { requests_sent := 0, successful_requests := 0, failed_requests := 0 }

lemma spam_flood_sum (codes : List Nat) : ∀ acc : FloodCounts,
    (codes.foldl spam_flood_step acc).success_count +
      (codes.foldl spam_flood_step acc).blocked_count +
      (codes.foldl spam_flood_step acc).error_count =
    acc.success_count + acc.blocked_count + acc.error_count + codes.length := by
  induction codes with
  | nil => intro acc; simp
  | cons c cs ih =>
    intro acc
    simp only [List.foldl_cons, List.length_cons]
    rw [ih]
    by_cases h1 : c = 200 <;> by_cases h2 : c = 429 <;>
      simp [spam_flood_step, h1, h2] <;> omega

lemma ddos_sum (reqs : List (ReqOutcome × Bool)) : ∀ acc : DdosCounts,
    (reqs.foldl (fun acc r => ddos_collect_step (ddos_task_step acc r.1) r.2)
        acc).successful_requests +
      (reqs.foldl (fun acc r => ddos_collect_step (ddos_task_step acc r.1) r.2)
        acc).failed_requests =
    acc.successful_requests + acc.failed_requests + reqs.length +
      reqs.countP (fun r => r.2) := by
  induction reqs with
  | nil => intro acc; simp
  | cons r rs ih =>
    intro acc
    simp only [List.foldl_cons, List.length_cons, List.countP_cons]
    rw [ih]
    cases h : r.1 <;> cases h2 : r.2 <;>
      simp [ddos_task_step, ddos_collect_step, h, h2] <;> omega

/-- C4 (amended): in attack_spam_flooding the three counters always sum to
the burst size; in attack_1_ddos_simulation the successful and failed
counters sum to the burst size provided no result-collection wait timed
out (a request whose collection wait times out is tallied twice). -/
theorem C4_flood_counts (codes : List Nat) (reqs : List (ReqOutcome × Bool))
    (h : ∀ r ∈ reqs, r.2 = false) :
    (attack_spam_flooding codes).success_count +
        (attack_spam_flooding codes).blocked_count +
        (attack_spam_flooding codes).error_count = codes.length ∧
    (attack_1_ddos_simulation reqs).successful_requests +
        (attack_1_ddos_simulation reqs).failed_requests = reqs.length := by
  constructor
  · simpa using spam_flood_sum codes
      { success_count := 0, blocked_count := 0, error_count := 0 }
  · have hc : reqs.countP (fun r => r.2) = 0 := by
      rw [List.countP_eq_zero]
      intro r hr
      simp [h r hr]
    have := ddos_sum reqs
      { requests_sent := 0, successful_requests := 0, failed_requests := 0 }
    simpa [attack_1_ddos_simulation, hc] using this

/-- A five-request burst with one success, one rate limit, one transport
error and two other statuses, and a two-request ddos run with no
collection timeout. -/
def flood_codes_demo : List Nat := [200, 429, 0, 500, 200]

def ddos_reqs_demo : List (ReqOutcome × Bool) :=
  [(ReqOutcome.okResp, false), (ReqOutcome.exn, false)]

/-- Witness for C4 at concrete bursts. -/
theorem C4_flood_counts_witness :
    (attack_spam_flooding flood_codes_demo).success_count +
        (attack_spam_flooding flood_codes_demo).blocked_count +
        (attack_spam_flooding flood_codes_demo).error_count = 5 ∧
    (attack_1_ddos_simulation ddos_reqs_demo).successful_requests +
        (attack_1_ddos_simulation ddos_reqs_demo).failed_requests = 2 :=
  C4_flood_counts flood_codes_demo ddos_reqs_demo (by decide)

/-- The 100-request ddos burst in which the last request succeeds but its
result collection times out. -/
def ddos_cex : List (ReqOutcome × Bool) :=
  List.replicate 99 (ReqOutcome.okResp, false) ++ [(ReqOutcome.okResp, true)]

/-- C4 counterexample: in attack_1_ddos_simulation a request that completes
successfully after its 1-second collection wait expired is counted both as
successful and as failed, so the recorded counts sum to 101 for a burst of
100. -/
theorem C4_counterexample :
    (attack_1_ddos_simulation ddos_cex).successful_requests +
        (attack_1_ddos_simulation ddos_cex).failed_requests ≠ ddos_cex.length := by
  decide

/- ======================= run_test teardown and report (C5) ===============
   Control-flow embedding of HeterogeneousNetworkTestLocal.run_test
   (heterogeneous_network_test_local.py lines 756-808). The environment
   supplies which Popen launches succeed, whether the genesis node becomes
   ready, and the point at which a KeyboardInterrupt arrives: interruptAt =
   some k means the interrupt fires at the start of step k of the try
   block, where the steps are 0 = genesis stage, 1 = normal-node stage,
   2 = malicious-node stage, 3 = attack stage, 4 = report generation. The
   interrupt jumps to the except arm and then the finally arm running
   stop_all; generate_report is only reached when no step before it was
   interrupted. -/

/-- Run-level state: the Popen table, the recorded stage entries and the
number of report files written. -/
structure RunState where
  processes : List String := []
  stages : List String := []
  reports_written : Nat := 0
deriving DecidableEq

/-- Embedding of start_node: on Popen success the handle is inserted into
self.processes (insertion order preserved); on failure nothing changes. -/
def start_node_model (startOk : String → Bool) (st : RunState) (name : String) :
    RunState :=
  if startOk name then { st with processes := st.processes ++ [name] } else st

/-- Embedding of stop_all: every tracked process is stopped and removed. -/
def stop_all_model (st : RunState) : RunState := { st with processes := [] }

/-- A stage record appended to report.stages. -/
def record_stage (st : RunState) (stage : String) : RunState :=
  { st with stages := st.stages ++ [stage] }

/-- Whether the operator interrupt has fired by the start of step k. -/
def interrupted_before (interruptAt : Option Nat) (k : Nat) : Bool :=
  match interruptAt with
  | none => false
  | some i => decide (i ≤ k)

/-- Embedding of run_test: stages run in order inside the try block; a
KeyboardInterrupt (or a failed genesis stage, which returns early) skips
the rest of the try block including generate_report; the finally arm
always runs stop_all. -/
def run_test_model (startOk : String → Bool) (genesisReady : Bool)
    (interruptAt : Option Nat) : RunState :=
  let s0 : RunState := {}
  if interrupted_before interruptAt 0 then stop_all_model s0 else
  let s1 := start_node_model startOk s0 ("genesis")
  if !(startOk ("genesis") && genesisReady) then stop_all_model s1 else
  let s1g := record_stage s1 ("genesis")
  if interrupted_before interruptAt 1 then stop_all_model s1g else
  let s2 := record_stage
    (start_node_model startOk (start_node_model startOk s1g ("node1")) ("node2"))
    ("normal_nodes")
  if interrupted_before interruptAt 2 then stop_all_model s2 else
  let s3 := record_stage
    (start_node_model startOk
      (start_node_model startOk s2 ("malicious1")) ("malicious2"))
    ("malicious_nodes")
  if interrupted_before interruptAt 3 then stop_all_model s3 else
  if interrupted_before interruptAt 4 then stop_all_model s3 else
  stop_all_model { s3 with reports_written := s3.reports_written + 1 }

lemma start_node_model_reports (startOk : String → Bool) (st : RunState)
    (name : String) :
    (start_node_model startOk st name).reports_written = st.reports_written := by
  unfold start_node_model
  split <;> rfl

lemma interrupted_before_mono (interruptAt : Option Nat) (k1 k2 : Nat)
    (h : k1 ≤ k2) (hk : interrupted_before interruptAt k1 = true) :
    interrupted_before interruptAt k2 = true := by
  cases interruptAt with
  | none => simp [interrupted_before] at hk
  | some i =>
    simp [interrupted_before] at hk ⊢
    omega

/-- C5 (amended): every teardown path of run_test empties the process
table (all started nodes are stopped), but a report file is written
exactly when the genesis stage succeeded and no interrupt fired before
report generation; an interrupted run writes no report. -/
theorem C5_interrupt_teardown (startOk : String → Bool) (genesisReady : Bool)
    (interruptAt : Option Nat) :
    (run_test_model startOk genesisReady interruptAt).processes = [] ∧
    (run_test_model startOk genesisReady interruptAt).reports_written =
      (if (startOk ("genesis") && genesisReady &&
          !(interrupted_before interruptAt 4)) = true then 1 else 0) := by
  constructor
  · unfold run_test_model
    split_ifs <;> rfl
  · by_cases hcond : (startOk ("genesis") && genesisReady &&
        !(interrupted_before interruptAt 4)) = true
    · rw [if_pos hcond]
      have hg : (startOk ("genesis") && genesisReady) = true := by
        simp only [Bool.and_assoc, Bool.and_eq_true] at hcond ⊢
        exact ⟨hcond.1, hcond.2.1⟩
      have h4 : interrupted_before interruptAt 4 = false := by
        simp only [Bool.and_eq_true, Bool.not_eq_true'] at hcond
        exact hcond.2
      have hlow : ∀ k, k ≤ 4 → interrupted_before interruptAt k = false := by
        intro k hk
        cases hx : interrupted_before interruptAt k
        · rfl
        · have := interrupted_before_mono interruptAt k 4 hk hx
          rw [this] at h4
          exact absurd h4 (by simp)
      unfold run_test_model
      rw [if_neg (by simp [hlow 0 (by omega)]), if_neg (by simp [hg]),
        if_neg (by simp [hlow 1 (by omega)]), if_neg (by simp [hlow 2 (by omega)]),
        if_neg (by simp [hlow 3 (by omega)]), if_neg (by simp [h4])]
      simp [stop_all_model, record_stage, start_node_model_reports]
    · rw [if_neg hcond]
      unfold run_test_model
      split_ifs with h0 hg h1 h2 h3 h4
      · rfl
      · simp [stop_all_model, start_node_model_reports]
      · simp [stop_all_model, record_stage, start_node_model_reports]
      · simp [stop_all_model, record_stage, start_node_model_reports]
      · simp [stop_all_model, record_stage, start_node_model_reports]
      · simp [stop_all_model, record_stage, start_node_model_reports]
      · exfalso
        apply hcond
        simp only [Bool.not_eq_true'] at hg
        simp only [Bool.not_eq_true] at h4
        simp [hg, h4]

/-- C5 counterexample: a run interrupted at the start of the attack stage
(step 3) with every node started successfully stops all processes but
writes no report file, contradicting the claim that a report is still
written for the incomplete run. -/
theorem C5_counterexample :
    (run_test_model (fun _ => true) true (some 3)).processes = [] ∧
    (run_test_model (fun _ => true) true (some 3)).reports_written = 0 := by
  decide

/- ================== Errored calls in attack tallies (C6) =================
   Embedding of MaliciousAttacks.attack_2_malformed_data
   (malicious_attack_demo.py lines 139-179). Each payload-endpoint pair
   produces one call outcome: a returned HTTP status, a requests timeout,
   or another transport error (connection refused). -/

/-- Outcome of one injected request of attack_2_malformed_data. -/
inductive CallOutcome
  | status (code : Nat)
  | timeoutExn
  | connExn
deriving DecidableEq

/-- The counters of attack_2_malformed_data; the result structure has no
errored field. -/
structure MalformedCounts where
  payloads_tested : Nat
  blocked_attempts : Nat
  successful_injections : Nat
deriving DecidableEq

/-- The statuses the source treats as blocked. -/
def blocked_status (c : Nat) : Bool := decide (c ∈ [400, 401, 403, 422, 429])

/-- One iteration of the attack_2_malformed_data loop: a returned status
counts as tested and possibly blocked or injected; a timeout bumps only
blocked_attempts; any other transport error is ignored entirely. -/
def malformed_step (acc : MalformedCounts) : CallOutcome → MalformedCounts
  | CallOutcome.status c =>
    let acc2 := { acc with payloads_tested := acc.payloads_tested + 1 }
    if blocked_status c then
      { acc2 with blocked_attempts := acc2.blocked_attempts + 1 }
    else if c = 200 then
      { acc2 with successful_injections := acc2.successful_injections + 1 }
    else acc2
  | CallOutcome.timeoutExn =>
    { acc with blocked_attempts := acc.blocked_attempts + 1 }
  | CallOutcome.connExn => acc

/-- Embedding of attack_2_malformed_data over the outcome sequence of its
payload-endpoint matrix. -/
def attack_2_malformed_data (outcomes : List CallOutcome) : MalformedCounts :=
  outcomes.foldl malformed_step
    { payloads_tested := 0, blocked_attempts := 0, successful_injections := 0 }

/-- Which outcomes bump blocked_attempts in the source. -/
def counts_as_blocked : CallOutcome → Bool
  | CallOutcome.status c => blocked_status c
  | CallOutcome.timeoutExn => true
  | CallOutcome.connExn => false

/-- Which outcomes bump payloads_tested in the source. -/
def counts_as_tested : CallOutcome → Bool
  | CallOutcome.status _ => true
  | _ => false

lemma malformed_fold (outcomes : List CallOutcome) : ∀ acc : MalformedCounts,
    (outcomes.foldl malformed_step acc).blocked_attempts =
        acc.blocked_attempts + outcomes.countP counts_as_blocked ∧
    (outcomes.foldl malformed_step acc).payloads_tested =
        acc.payloads_tested + outcomes.countP counts_as_tested := by
  induction outcomes with
  | nil => intro acc; simp
  | cons o os ih =>
    intro acc
    simp only [List.foldl_cons, List.countP_cons]
    obtain ⟨ihb, iht⟩ := ih (malformed_step acc o)
    rw [ihb, iht]
    cases o with
    | status c =>
      cases hb : blocked_status c
      · by_cases h200 : c = 200
        · subst h200
          simp [malformed_step, counts_as_blocked, counts_as_tested, hb]
          omega
        · simp [malformed_step, counts_as_blocked, counts_as_tested, hb, h200]
          omega
      · simp [malformed_step, counts_as_blocked, counts_as_tested, hb]
        omega
    | timeoutExn =>
      simp [malformed_step, counts_as_blocked, counts_as_tested]
      omega
    | connExn =>
      simp [malformed_step, counts_as_blocked, counts_as_tested]

lemma spam_flood_fold (codes : List Nat) : ∀ acc : FloodCounts,
    (codes.foldl spam_flood_step acc).error_count =
        acc.error_count +
          codes.countP (fun c => !(decide (c = 200) || decide (c = 429))) ∧
    (codes.foldl spam_flood_step acc).blocked_count =
        acc.blocked_count + codes.countP (fun c => decide (c = 429)) := by
  induction codes with
  | nil => intro acc; simp
  | cons c cs ih =>
    intro acc
    simp only [List.foldl_cons, List.countP_cons]
    obtain ⟨ihe, ihb⟩ := ih (spam_flood_step acc c)
    rw [ihe, ihb]
    by_cases h1 : c = 200 <;> by_cases h2 : c = 429 <;>
      simp [spam_flood_step, h1, h2] <;> omega

/-- C6 (amended): in attack_2_malformed_data the blocked tally counts the
blocked statuses plus the timeouts (a timeout is conflated with an
intentional block, and does not count as tested), a connection error is
ignored entirely, and the result structure has no separate errored tally;
in attack_spam_flooding a transport error (code 0) is tallied only as
errored and never as blocked or rate-limited. -/
theorem C6_errored_not_blocked (outcomes : List CallOutcome) (codes : List Nat) :
    (attack_2_malformed_data outcomes).blocked_attempts =
        outcomes.countP counts_as_blocked ∧
    (attack_2_malformed_data outcomes).payloads_tested =
        outcomes.countP counts_as_tested ∧
    (attack_spam_flooding codes).error_count =
        codes.countP (fun c => !(decide (c = 200) || decide (c = 429))) ∧
    (attack_spam_flooding codes).blocked_count =
        codes.countP (fun c => decide (c = 429)) := by
  obtain ⟨hb, ht⟩ := malformed_fold outcomes
    { payloads_tested := 0, blocked_attempts := 0, successful_injections := 0 }
  obtain ⟨he, hbl⟩ := spam_flood_fold codes
    { success_count := 0, blocked_count := 0, error_count := 0 }
  exact ⟨by simpa using hb, by simpa using ht, by simpa using he,
    by simpa using hbl⟩

/-- C6 counterexample: a connection-refused call in attack_2_malformed_data
is not counted as blocked (nor anywhere else), and an errored call in
attack_spam_flooding is tallied as errored without being counted as
blocked, contradicting the claimed counted-as-blocked-and-errored policy. -/
theorem C6_counterexample :
    (attack_2_malformed_data [CallOutcome.connExn]).blocked_attempts = 0 ∧
    (attack_spam_flooding [0]).blocked_count = 0 ∧
    (attack_spam_flooding [0]).error_count = 1 := by
  decide

/- ======================= ReportGenerator.overallScore (C7) ===============
   Embedding of the overall-score computation of generate_security_report
   (malicious_attack_demo.py lines 375-380): each category rating is one of
   the three strings mapped by score_map to 100, 60 and 20; the mean is
   computed only when at least one category was scored, otherwise the
   overall_score key is absent from the report (the undefined marker). -/

/-- The three category ratings produced by generate_security_report. -/
inductive Rating
  | good
  | fair
  | poor
deriving DecidableEq

/-- The score_map dict of the source. -/
def score_map : Rating → ℚ
  | Rating.good => 100
  | Rating.fair => 60
  | Rating.poor => 20

/-- Embedding of the overall-score computation; none models the absent
overall_score key when no category was scored. -/
def overall_score (ratings : List Rating) : Option ℚ :=
  if ratings.isEmpty then none
  else some ((ratings.map score_map).sum / ratings.length)

lemma sum_all_good (ratings : List Rating)
    (hall : ∀ r ∈ ratings, r = Rating.good) :
    (ratings.map score_map).sum = 100 * ratings.length := by
  induction ratings with
  | nil => simp
  | cons r rs ih =>
    have hr : r = Rating.good := hall r (List.mem_cons_self r rs)
    have hrs : ∀ x ∈ rs, x = Rating.good := fun x hx =>
      hall x (List.mem_cons_of_mem r hx)
    subst hr
    simp [score_map, ih hrs]
    ring

/-- C7: overall_score returns the undefined marker (not zero) when no
category was scored, the mean of the fixed weights otherwise (here
witnessed by a mixed list scoring (100 + 20) / 2 = 60), and exactly 100
when every scored category is rated good. -/
theorem C7_overall_score (ratings : List Rating) (hne : ratings ≠ [])
    (hall : ∀ r ∈ ratings, r = Rating.good) :
    overall_score [] = none ∧
    overall_score [Rating.good, Rating.poor] = some 60 ∧
    overall_score ratings = some 100 := by
  refine ⟨rfl, ?_, ?_⟩
  · simp [overall_score, score_map]
    norm_num
  · have hlen0 : ratings.length ≠ 0 := fun h => hne (List.length_eq_zero.mp h)
    have hlen : (ratings.length : ℚ) ≠ 0 := by exact_mod_cast hlen0
    rw [overall_score, if_neg (by simpa [List.isEmpty_iff] using hne)]
    rw [sum_all_good ratings hall, mul_div_assoc, div_self hlen, mul_one]

/-- Witness for C7: a run in which both scored categories are rated good
has overall score exactly 100. -/
theorem C7_overall_score_witness :
    overall_score [Rating.good, Rating.good] = some 100 :=
  (C7_overall_score [Rating.good, Rating.good] (by decide) (by decide)).2.2

/- ======================= Start and stop ordering (C8) ====================
   Embedding of the bring-up order of malicious_node_test.py (stage 1
   starts index 0, stage 2 starts indices 1 .. initial_nodes-1 in ascending
   order, stage 3 starts indices initial_nodes .. max_nodes-1 in ascending
   order), of MaliciousNodeTest.stage_5_shutdown (lines 542-558, iterating
   reversed(nodes)), and of HeterogeneousNetworkTestLocal.stop_all (lines
   243-252, iterating list(self.processes.keys()), which Python yields in
   insertion order, the start order). -/

/-- The sequence of node indices started by the three bring-up stages. -/
def start_order (initial_nodes max_nodes : Nat) : List Nat :=
  0 :: (List.range' 1 (initial_nodes - 1) ++
    List.range' initial_nodes (max_nodes - initial_nodes))

/-- The stop sequence emitted by stage_5_shutdown: the loop walks
reversed(nodes) and stops each node in turn. -/
def stage_5_shutdown_order (nodes : List NodeInfo) : List String :=
  nodes.reverse.foldl (fun order node => order ++ [node.node_id]) []

/-- The stop sequence emitted by stop_all: the loop walks the keys of
self.processes in dict insertion order, which is the start order. -/
def stop_all_order (processes : List String) : List String :=
  processes.foldl (fun order name => order ++ [name]) []

lemma foldl_snoc_map {α β : Type} (f : α → β) (l : List α) : ∀ acc : List β,
    l.foldl (fun o x => o ++ [f x]) acc = acc ++ l.map f := by
  induction l with
  | nil => intro acc; simp
  | cons x xs ih =>
    intro acc
    simp [List.foldl_cons, ih]

/-- C8 (amended): nodes are started in ascending index order with the
genesis node (index 0) first; stage_5_shutdown stops in reverse start
order; but stop_all of the local heterogeneous test stops in insertion
order, which is the start order, not its reverse. -/
theorem C8_ordering (i m : Nat) (h1 : 1 ≤ i) (h2 : i ≤ m)
    (nodes : List NodeInfo) (procs : List String) :
    List.Sorted (· < ·) (start_order i m) ∧
    (start_order i m).head? = some 0 ∧
    stage_5_shutdown_order nodes = (nodes.map NodeInfo.node_id).reverse ∧
    stop_all_order procs = procs := by
  refine ⟨?_, by simp [start_order], ?_, ?_⟩
  · rw [start_order, List.sorted_cons]
    constructor
    · intro b hb
      rcases List.mem_append.mp hb with h | h
      · have := List.mem_range'_1.mp h
        omega
      · have := List.mem_range'_1.mp h
        omega
    · have : List.Pairwise (· < ·)
          (List.range' 1 (i - 1) ++ List.range' i (m - i)) := by
        rw [List.pairwise_append]
        refine ⟨List.pairwise_lt_range' 1 (i - 1),
          List.pairwise_lt_range' i (m - i), ?_⟩
        intro a ha b hb
        have h3 := List.mem_range'_1.mp ha
        have h4 := List.mem_range'_1.mp hb
        omega
      exact this
  · rw [stage_5_shutdown_order, foldl_snoc_map NodeInfo.node_id]
    simp
  · rw [stop_all_order]
    have := foldl_snoc_map (fun s : String => s) procs []
    simpa using this

/-- Two descriptors in start order, for the witness. -/
def demo_nodes : List NodeInfo :=
  [{ node_id := "node00" }, { node_id := "node01" }]

/-- Witness for C8 at a concrete run shape (initial 10 nodes expanded to
20, two started descriptors, two tracked processes). -/
theorem C8_ordering_witness :
    List.Sorted (· < ·) (start_order 10 20) ∧
    (start_order 10 20).head? = some 0 ∧
    stage_5_shutdown_order demo_nodes = (demo_nodes.map NodeInfo.node_id).reverse ∧
    stop_all_order ["genesis", "node1"] = ["genesis", "node1"] :=
  C8_ordering 10 20 (by decide) (by decide) demo_nodes ["genesis", "node1"]

/-- C8 counterexample: in a run that started genesis before node1, the
interrupt and normal teardown path stop_all stops genesis first, not in
reverse start order as the claim requires of every teardown path. -/
theorem C8_counterexample :
    stop_all_order ["genesis", "node1"] ≠
      (["genesis", "node1"] : List String).reverse := by
  decide

/- ======================= scoreCategory thresholds (C9) ===================
   Embedding of the per-category rating expressions of
   generate_security_report (malicious_attack_demo.py lines 344-360). Each
   category maps a rate to one of three ratings with two strict-greater
   comparisons; rates are ratios of small counts, on which exact rational
   comparison agrees with the float comparison of the source. -/

/-- The common three-way rating shape of the source expressions, with the
two thresholds of the category. -/
def rating_with_thresholds (goodThr fairThr rate : ℚ) : Rating :=
  if goodThr < rate then Rating.good
  else if fairThr < rate then Rating.fair
  else Rating.poor

/-- The input_validation category: good above 0.8, fair above 0.5. -/
def input_validation_rating (rate : ℚ) : Rating :=
  rating_with_thresholds (4 / 5) (1 / 2) rate

/-- The ddos_resistance category: good above 0.5, fair above 0.2. -/
def ddos_resistance_rating (rate : ℚ) : Rating :=
  rating_with_thresholds (1 / 2) (1 / 5) rate

/-- The access_control category: good above 0.9, fair above 0.7. -/
def access_control_rating (rate : ℚ) : Rating :=
  rating_with_thresholds (9 / 10) (7 / 10) rate

/-- The guarded ratio used for every category rate in the source. -/
def block_rate (blocked tested : Nat) : ℚ :=
  if 0 < tested then (blocked : ℚ) / (tested : ℚ) else 0

/-- C9 (amended): the rating boundaries are exclusive, not inclusive: a
category is rated good exactly when its rate strictly exceeds the good
threshold and fair exactly when the rate strictly exceeds the fair
threshold without exceeding the good one; a rate exactly at a threshold
falls to the lower tier. -/
theorem C9_rating_thresholds (rate : ℚ) :
    (input_validation_rating rate = Rating.good ↔ 4 / 5 < rate) ∧
    (input_validation_rating rate = Rating.fair ↔ 1 / 2 < rate ∧ rate ≤ 4 / 5) ∧
    (input_validation_rating rate = Rating.poor ↔ rate ≤ 1 / 2) := by
  unfold input_validation_rating rating_with_thresholds
  split_ifs with hg hf
  · refine ⟨by simp [hg], ?_, ?_⟩
    · simp only [reduceCtorEq, false_iff]
      intro hcon
      linarith [hcon.2]
    · simp only [reduceCtorEq, false_iff]
      intro hcon
      linarith
  · refine ⟨?_, ?_, ?_⟩
    · simp only [reduceCtorEq, false_iff]
      exact hg
    · simp only [true_iff]
      exact ⟨hf, by linarith [not_lt.mp hg]⟩
    · simp only [reduceCtorEq, false_iff]
      intro hcon
      linarith
  · refine ⟨?_, ?_, ?_⟩
    · simp only [reduceCtorEq, false_iff]
      exact hg
    · simp only [reduceCtorEq, false_iff]
      intro hcon
      exact hf hcon.1
    · simp only [true_iff]
      exact not_lt.mp hf

/-- C9 counterexample: a category in which exactly 4 of 5 payloads were
blocked has block rate exactly 0.8 and is rated fair, not good as the
claim requires; a rate of exactly 0.5 is rated poor, not fair. -/
theorem C9_counterexample :
    input_validation_rating (block_rate 4 5) = Rating.fair ∧
    input_validation_rating (1 / 2) = Rating.poor := by
  constructor <;>
    norm_num [input_validation_rating, rating_with_thresholds, block_rate]
